import Mathlib

/-!
Shallow embedding of two QEMU utility modules:
  * `util/mmap-alloc.c`  — guest-RAM mapper (page-size probe, guarded mmap, munmap)
  * `util/qemu-coroutine.c` — coroutine create/enter/yield/pool runtime

Host syscalls (`fstatfs`, `mmap`, `mprotect`, `munmap`, `readlink`) are modelled
by an explicit environment supplying their outcomes, and the syscalls a run
performs are recorded in a trace, so that properties about *which* calls are
made (lengths, flags, warnings) are statable.  Machine pointers are `Nat`
(0 = NULL); platform conditional compilation (`CONFIG_LINUX`, `__powerpc64__`,
`__sparc__`) is a `Platform` record.
-/

namespace QemuModel

/-- Build/architecture configuration: which `#ifdef` arms of the C source are
active, and the platform constants they reference. -/
structure Platform where
  linux : Bool
  ppc64 : Bool
  sparc : Bool
  realPageSize : Nat      -- qemu_real_host_page_size
  vmallocAlign : Nat      -- QEMU_VMALLOC_ALIGN (sparc override)
deriving DecidableEq

def HUGETLBFS_MAGIC : Nat := 0x958458f6
def EINTR : Nat := 4
def ENOTSUP : Nat := 95

/-- Outcome of one `fstatfs` call: success with `(f_type, f_bsize)`, or
failure with an errno. -/
inductive StatfsOutcome
  | ok (f_type f_bsize : Nat)
  | fail (errno : Nat)
deriving DecidableEq

/-- The `do { ret = fstatfs(...) } while (ret != 0 && errno == EINTR)` loop:
take the first outcome that is not an EINTR failure.  `none` means every
supplied outcome was an EINTR failure (the C loop would still be spinning). -/
def statfsLoop : List StatfsOutcome → Option StatfsOutcome
  | [] => none
  | o :: rest => if o = .fail EINTR then statfsLoop rest else some o

/-- Fallback page size on a Linux build: the sparc override when compiled for
sparc (`QEMU_VMALLOC_ALIGN`), otherwise the host real page size. -/
def linuxFallback (plat : Platform) : Nat :=
  if plat.sparc then plat.vmallocAlign else plat.realPageSize

/-- `qemu_fd_getpagesize` (mmap-alloc.c:30-52).  On Linux with `fd != -1` it
probes the filesystem (retrying on EINTR); a hugetlbfs probe returns the
block size, anything else falls back.  `none` = the retry loop never exited
(all outcomes EINTR).  The function has no abort/exit path. -/
def qemu_fd_getpagesize (plat : Platform) (fd : Int)
    (outs : List StatfsOutcome) : Option Nat :=
  if plat.linux then
    if fd ≠ -1 then
      match statfsLoop outs with
      | none => none
      | some (.ok t b) =>
          if t = HUGETLBFS_MAGIC then some b else some (linuxFallback plat)
      | some (.fail _) => some (linuxFallback plat)
    else some (linuxFallback plat)
  else some plat.realPageSize

/-- `is_power_of_2` from qemu's host-utils: nonzero and `x & (x-1) == 0`. -/
def is_power_of_2 (x : Nat) : Bool :=
  x ≠ 0 && x &&& (x - 1) = 0

/-- Modelled from the spec: `QEMU_ALIGN_UP(n, m)` (header not in src/) rounds
`n` up to the next multiple of `m`: `((n + m - 1) / m) * m`. -/
def alignUp (n m : Nat) : Nat := ((n + m - 1) / m) * m

/- mmap flag constants (Linux values; on non-Linux builds the source defines
MAP_SYNC and MAP_SHARED_VALIDATE as 0, mmap-alloc.c:15-18). -/
def MAP_SHARED : Nat := 0x01
def MAP_PRIVATE : Nat := 0x02
def MAP_ANONYMOUS : Nat := 0x20
def MAP_NORESERVE : Nat := 0x4000
def MAP_SYNC (plat : Platform) : Nat := if plat.linux then 0x80000 else 0
def MAP_SHARED_VALIDATE (plat : Platform) : Nat := if plat.linux then 0x3 else 0

/-- Recorded syscall / diagnostic events of a mapper run. -/
inductive Ev
  | mmapCall (len flags sync : Nat) (fd : Int)   -- mmap(0, len, RW, flags|sync, fd, 0)
  | warn (fileName : String)                     -- the persistence-fallback warning
  | mprotectNone (addr len : Nat)                -- mprotect(addr, len, PROT_NONE)
  | munmapEv (addr len : Nat)                    -- munmap(addr, len)
deriving DecidableEq

/-- Environment: outcomes the host gives to the syscalls `qemu_ram_mmap`
makes.  Addresses are `Nat`, `none` = MAP_FAILED / failed call. -/
structure MmapEnv where
  fdOuts : List StatfsOutcome    -- fstatfs outcomes for the ppc64 pagesize probe
  firstMmap : Option Nat         -- result of the first (reservation) mmap
  firstErrno : Nat               -- errno when the first mmap failed
  retryMmap : Option Nat         -- result of the retry mmap (if reached)
  guardProtFails : Bool          -- leading-guard mprotect returns < 0
  readlinkName : Option String   -- /proc/self/fd/<n> target; none = readlink fails
deriving DecidableEq

/-- Result of `qemu_ram_mmap`. -/
inductive MmapRes
  | failed                -- returned MAP_FAILED
  | addr (base : Nat)     -- returned this base pointer
  | assertFailed          -- one of the alignment asserts fired (abort)
  | hang                  -- the ppc64 pagesize probe loop never exited
deriving DecidableEq

/-- The per-platform page-size rule `qemu_ram_mmap` uses for its reservation
(mmap-alloc.c:105-127): on ppc64 Linux probe the fd, otherwise the host real
page size. -/
def fdPagesizeRule (plat : Platform) (fd : Int)
    (outs : List StatfsOutcome) : Option Nat :=
  if plat.ppc64 && plat.linux then qemu_fd_getpagesize plat fd outs
  else some plat.realPageSize

/-- `qemu_ram_mmap` (mmap-alloc.c:85-185), as a function of the inputs and the
syscall environment, returning the result and the trace of syscalls made.
The `readlink` best-effort name (lines 147-153) becomes the empty string when
the link is unreadable. -/
def qemu_ram_mmap (plat : Platform) (fd : Int) (size align : Nat)
    (shared is_pmem : Bool) (env : MmapEnv) : MmapRes × List Ev :=
  -- lines 105-127: flag/pagesize/mapfd negotiation
  let base :=
    if plat.ppc64 && plat.linux then
      match qemu_fd_getpagesize plat fd env.fdOuts with
      | none => none
      | some pagesize =>
          if fd = -1 || pagesize = plat.realPageSize then
            some (MAP_PRIVATE ||| MAP_ANONYMOUS, (-1 : Int), pagesize)
          else
            some (MAP_PRIVATE ||| MAP_NORESERVE, fd, pagesize)
    else
      some (MAP_PRIVATE ||| MAP_ANONYMOUS, (-1 : Int), plat.realPageSize)
  match base with
  | none => (.hang, [])
  | some (flags0, mapfd, pagesize) =>
    -- lines 129-131: asserts
    if ¬ (is_power_of_2 align && decide (pagesize ≤ align)) then
      (.assertFailed, [])
    else
      -- lines 133-137
      let flags1 := flags0 ||| (if fd = -1 then MAP_ANONYMOUS else 0)
      let flags := flags1 ||| (if shared then MAP_SHARED else MAP_PRIVATE)
      let map_sync_flags :=
        if shared && is_pmem then MAP_SYNC plat ||| MAP_SHARED_VALIDATE plat
        else 0
      -- line 139
      let total := size + align + pagesize
      -- line 141: reservation attempt
      let tr0 := [Ev.mmapCall total flags map_sync_flags mapfd]
      -- lines 143-166: persistence-flag fallback
      let step2 : Option Nat × List Ev :=
        match env.firstMmap with
        | some p => (some p, tr0)
        | none =>
            if map_sync_flags ≠ 0 then
              let warns :=
                if env.firstErrno = ENOTSUP then
                  [Ev.warn (env.readlinkName.getD "")]
                else []
              (env.retryMmap, tr0 ++ warns ++ [Ev.mmapCall size flags 0 mapfd])
            else (none, tr0)
      match step2 with
      | (none, tr) => (.failed, tr)     -- lines 168-170
      | (some p, tr) =>
        -- line 172
        let offset := alignUp p align - p
        -- lines 174-177: leading guard; on failure munmap the reservation
        -- (but the code then falls through without returning MAP_FAILED)
        let tr := tr ++ [Ev.mprotectNone p offset]
        let tr := if env.guardProtFails then tr ++ [Ev.munmapEv p total] else tr
        -- lines 179-182: trailing guard
        let total2 := total - offset
        let tr :=
          if size + pagesize < total2 then
            tr ++ [Ev.mprotectNone (p + offset + size) pagesize]
          else tr
        -- line 184
        (.addr (p + offset), tr)

/-- `qemu_ram_munmap` (mmap-alloc.c:187-200): NULL pointer does nothing;
otherwise re-derive the page size by the mapper's per-platform rule and
munmap `size + pagesize` bytes at `base`.  `none` = the ppc64 probe loop
never exited. -/
def qemu_ram_munmap (plat : Platform) (fd : Int) (outs : List StatfsOutcome)
    (base size : Nat) : Option (List Ev) :=
  if base = 0 then some []
  else
    match
      (if plat.ppc64 && plat.linux then qemu_fd_getpagesize plat fd outs
       else some plat.realPageSize) with
    | none => none
    | some pagesize => some [Ev.munmapEv base (size + pagesize)]

/-- The address range an event releases. -/
def releases (e : Ev) (a : Nat) : Prop :=
  match e with
  | .munmapEv b l => b ≤ a ∧ a < b + l
  | _ => False

/-! ## Coroutine runtime (`util/qemu-coroutine.c`)

Coroutines are identified by `Nat` ids; a total map `cos : Nat → CoShell`
holds their fields.  The stack-switch primitive is abstracted, per the spec,
by a behavior function giving each coroutine's next slice: the wake-ups its
body queues on its own `co_queue_wakeup` and whether it yields or terminates
(`qemu_coroutine_switch` returning `COROUTINE_YIELD` / `COROUTINE_TERMINATE`).
A yielding slice clears the coroutine's `caller` because the body suspends
via `qemu_coroutine_yield` (lines 142-156), which does exactly that. -/

def COROUTINE_POOL_SIZE : Nat := 16

/-- The fields of `struct Coroutine` that the code under src/ touches.
`entry`, `entryArg` and `ctx` are abstract `Nat` handles. -/
structure CoShell where
  entry : Nat
  entryArg : Nat
  caller : Option Nat
  scheduled : Option String
  wakeups : List Nat       -- co_queue_wakeup (FIFO, head = front)
  locksHeld : Nat
  ctx : Nat
deriving DecidableEq

/-- Modelled from the spec: `qemu_coroutine_new` (not under src/) allocates a
fresh coroutine in the suspended-never-entered state: null caller, not
scheduled, empty wake-up queue, no locks held. -/
def freshShell : CoShell :=
  { entry := 0, entryArg := 0, caller := none, scheduled := none,
    wakeups := [], locksHeld := 0, ctx := 0 }

/-- The free-list pool (`Coroutine_pool`, lines 28-34): `total` live
coroutines, and the stack of free shells, head = `pool[top-1]`, so
`top = stack.length`. -/
structure Pool where
  total : Nat
  stack : List Nat
deriving DecidableEq

/-- Whole runtime state: coroutine shells, the pool singleton, and the
fresh-id supply used by `qemu_coroutine_new`. -/
structure SysState where
  cos : Nat → CoShell
  pool : Pool
  nextId : Nat

/-- Pointwise update of the shell map. -/
def setCo (cos : Nat → CoShell) (i : Nat) (sh : CoShell) : Nat → CoShell :=
  fun j => if j = i then sh else cos j

theorem setCo_self (cos : Nat → CoShell) (i : Nat) (sh : CoShell) :
    setCo cos i sh i = sh := by simp [setCo]

theorem setCo_ne (cos : Nat → CoShell) (i : Nat) (sh : CoShell) (j : Nat)
    (h : j ≠ i) : setCo cos i sh j = cos j := by simp [setCo, h]

/-- `qemu_coroutine_create` (lines 36-52): pop `pool[top-1]` when the free
list is non-empty, else allocate fresh and bump `total`; then install
`entry`, `entry_arg` and re-initialize `co_queue_wakeup` to empty. -/
def qemu_coroutine_create (entry arg : Nat) (st : SysState) :
    Nat × SysState :=
  match st.pool.stack with
  | id :: rest =>
      let sh := st.cos id
      (id, { st with
              pool := { st.pool with stack := rest },
              cos := setCo st.cos id
                { sh with entry := entry, entryArg := arg, wakeups := [] } })
  | [] =>
      let id := st.nextId
      (id, { st with
              nextId := id + 1,
              pool := { st.pool with total := st.pool.total + 1 },
              cos := setCo st.cos id
                { freshShell with entry := entry, entryArg := arg,
                                  wakeups := [] } })

/-- `coroutine_delete` (lines 54-64): clear `caller`; if `total ≥ 16` free the
shell and decrement `total`, else push it on the free list. -/
def coroutine_delete (id : Nat) (st : SysState) : SysState :=
  let st := { st with
              cos := setCo st.cos id { st.cos id with caller := none } }
  if COROUTINE_POOL_SIZE ≤ st.pool.total then
    { st with pool := { st.pool with total := st.pool.total - 1 } }
  else
    { st with pool := { st.pool with stack := id :: st.pool.stack } }

/-- One slice of a coroutine's body, as observed by the enter loop: the
wake-ups it queued on its `co_queue_wakeup` and the action code the context
switch returns. -/
inductive Action
  | yield
  | terminate
deriving DecidableEq

structure Slice where
  wakeups : List Nat
  action : Action
deriving DecidableEq

/-- How a run of `qemu_aio_coroutine_enter` ends. -/
inductive Outcome
  | ok                           -- pending queue drained, function returns
  | fuelOut                      -- model fuel exhausted
  | abortScheduled (tag : String)  -- "already scheduled in tag" abort
  | abortReenter                 -- "re-entered recursively" abort
  | abortLocks                   -- assert(!to->locks_held) fired
deriving DecidableEq

structure EnterRes where
  outcome : Outcome
  state : SysState
  entered : List Nat             -- coroutines switched to, in order

/-- The drain loop of `qemu_aio_coroutine_enter` (lines 74-127).  Each
iteration pops the pending head `to`, aborts on a non-null `scheduled` tag or
a non-null `caller`, installs `caller := frm` and `ctx`, runs the slice, then
(`QSIMPLEQ_PREPEND`, modelled from the spec: splices `to.co_queue_wakeup` in
order at the head of `pending`, emptying it) prepends the woken coroutines,
and on `TERMINATE` checks `locks_held` and recycles via `coroutine_delete`. -/
def drainLoop (beh : Nat → Slice) (ctx frm : Nat) :
    Nat → List Nat → SysState → List Nat → EnterRes
  | _, [], st, tr => ⟨.ok, st, tr⟩
  | fuel, tgt :: rest, st, tr =>
      let c := st.cos tgt
      match c.scheduled with
      | some tag => ⟨.abortScheduled tag, st, tr⟩
      | none =>
        match c.caller with
        | some _ => ⟨.abortReenter, st, tr⟩
        | none =>
          let sl := beh tgt
          -- lines 101-109: caller := from, ctx := ctx, switch; the slice
          -- fills to.co_queue_wakeup; a yielding body clears to.caller
          -- (qemu_coroutine_yield); line 114 empties the queue into pending
          let c1 : CoShell :=
            { c with
                caller := if sl.action = .yield then none else some frm,
                ctx := ctx,
                wakeups := [] }
          let st1 := { st with cos := setCo st.cos tgt c1 }
          let pending := sl.wakeups ++ rest
          let tr := tr ++ [tgt]
          match sl.action with
          | .yield =>
              match fuel with
              | 0 => ⟨.fuelOut, st1, tr⟩
              | fuel + 1 => drainLoop beh ctx frm fuel pending st1 tr
          | .terminate =>
              if c1.locksHeld ≠ 0 then ⟨.abortLocks, st1, tr⟩
              else
                let st2 := coroutine_delete tgt st1
                match fuel with
                | 0 => ⟨.fuelOut, st2, tr⟩
                | fuel + 1 => drainLoop beh ctx frm fuel pending st2 tr

/-- `qemu_aio_coroutine_enter` (lines 66-128): run `co` and everything it
transitively wakes, starting from a singleton pending queue. -/
def qemu_aio_coroutine_enter (beh : Nat → Slice) (ctx frm : Nat)
    (fuel : Nat) (co : Nat) (st : SysState) : EnterRes :=
  drainLoop beh ctx frm fuel [co] st []

/-- Result of `qemu_coroutine_yield`. -/
inductive YieldRes
  | abortNoCaller (st : SysState)        -- "yielding to no one" abort
  | switched (tgt : Nat) (st : SysState)  -- context_switch(self, tgt, YIELD)

/-- `qemu_coroutine_yield` (lines 142-156): abort when `self.caller` is null,
else clear it and switch to the former caller with the YIELD action. -/
def qemu_coroutine_yield (self : Nat) (st : SysState) : YieldRes :=
  match (st.cos self).caller with
  | none => .abortNoCaller st
  | some tgt =>
      .switched tgt
        { st with
            cos := setCo st.cos self { st.cos self with caller := none } }

/-- `qemu_coroutine_entered` (lines 158-161): whether `co->caller` is
non-null. -/
def qemu_coroutine_entered (co : Nat) (st : SysState) : Bool :=
  (st.cos co).caller.isSome

/-! ### S4 simulation: sequential create-and-terminate cycles -/

/-- Behavior of a body that immediately terminates, waking nobody. -/
def termBeh : Nat → Slice := fun _ => ⟨[], .terminate⟩

/-- One step of the S4 scenario: create a coroutine (fixed entry 7, arg 7),
then run it to termination from the root runner (id 0, ctx 0). -/
def runOnce (st : SysState) : SysState :=
  let p := qemu_coroutine_create 7 7 st
  (drainLoop termBeh 0 0 1 [p.1] p.2 []).state

/-- Empty-pool initial state; fresh ids start at 1 (0 is the root runner). -/
def initState : SysState :=
  { cos := fun _ => freshShell, pool := { total := 0, stack := [] },
    nextId := 1 }

/-- `simulate k`: the state after `k` sequential create-terminate cycles. -/
def simulate : Nat → SysState
  | 0 => initState
  | k + 1 => runOnce (simulate k)

/-! ## Helper lemmas -/

theorem le_alignUp (p a : Nat) (ha : 0 < a) : p ≤ alignUp p a := by
  unfold alignUp
  have h1 := Nat.div_add_mod (p + a - 1) a
  have h2 : (p + a - 1) % a < a := Nat.mod_lt _ ha
  have h3 : a * ((p + a - 1) / a) = ((p + a - 1) / a) * a := Nat.mul_comm _ _
  omega

theorem alignUp_dvd (p a : Nat) : a ∣ alignUp p a := dvd_mul_left a _

theorem is_power_of_2_pos {x : Nat} (h : is_power_of_2 x = true) : 0 < x := by
  simp [is_power_of_2] at h
  omega

/-- Trace-event classifiers for `qemu_ram_mmap` runs. -/
def isWarnEv : Ev → Bool
  | .warn _ => true
  | _ => false

def isMmapEv : Ev → Bool
  | .mmapCall _ _ _ _ => true
  | _ => false

/-! ## Concrete instances used by witnesses and counterexamples -/

/-- An ordinary Linux/x86-64 build: 4 KiB pages, no ppc64/sparc overrides. -/
def platX : Platform :=
  { linux := true, ppc64 := false, sparc := false,
    realPageSize := 4096, vmallocAlign := 0 }

/-- Environment for the leading-guard-failure run: the reservation mmap
succeeds at (unaligned) address 6144, the leading-guard mprotect fails. -/
def envGuard : MmapEnv :=
  { fdOuts := [], firstMmap := some 6144, firstErrno := 0, retryMmap := none,
    guardProtFails := true, readlinkName := none }

/-- Environment for the persistence-fallback run: the first mmap fails with
ENOTSUP and the retry fails too; the fd link reads back as "pmemfile". -/
def envPmem : MmapEnv :=
  { fdOuts := [], firstMmap := none, firstErrno := ENOTSUP, retryMmap := none,
    guardProtFails := false, readlinkName := some "pmemfile" }

/-! ## Claim theorems -/

/-- Claim C1 (code bug): on the run where the reservation mmap succeeds at
address 6144 (so the leading guard is the 2048 bytes up to the aligned base
8192) and the leading-guard `mprotect` fails, `qemu_ram_mmap` does munmap the
entire reservation `[6144, 6144+12288)`, but then falls through and returns
the pointer 8192 — an address inside the released region — instead of the
FAILED sentinel, contradicting the claim and the intent of its own cleanup. -/
theorem C1_guard_failure_returns_pointer_into_released_region :
    (qemu_ram_mmap platX (-1) 4096 4096 false false envGuard).1 = .addr 8192
    ∧ Ev.munmapEv 6144 12288 ∈
        (qemu_ram_mmap platX (-1) 4096 4096 false false envGuard).2
    ∧ (qemu_ram_mmap platX (-1) 4096 4096 false false envGuard).1 ≠ .failed
    ∧ releases (Ev.munmapEv 6144 12288) 8192 := by
  refine ⟨by decide, by decide, by decide, ?_⟩
  simp [releases]

/-- Claim C4: with persistence flags requested (Linux build, `shared` and
`is_pmem`) and the first mmap failing with ENOTSUP, exactly one warning is
emitted naming the backing file (the readlink result, or "" when the link is
unreadable); the mapping is retried with the same non-sync flags, length
`size` only (the first call asked for `size + align + pagesize`), and with
the persistence flags (which are non-zero on Linux) removed; if the retry
also fails the call returns FAILED. -/
theorem C4_pmem_enotsup_fallback (plat : Platform) (fd : Int)
    (size align ps : Nat) (env : MmapEnv)
    (hlin : plat.linux = true)
    (hps : fdPagesizeRule plat fd env.fdOuts = some ps)
    (hpow : is_power_of_2 align = true)
    (halign : ps ≤ align)
    (hfail : env.firstMmap = none)
    (herr : env.firstErrno = ENOTSUP) :
    ∃ flags mapfd,
      ((qemu_ram_mmap plat fd size align true true env).2.filter isWarnEv
          = [Ev.warn (env.readlinkName.getD "")])
      ∧ ((qemu_ram_mmap plat fd size align true true env).2.filter isMmapEv
          = [Ev.mmapCall (size + align + ps) flags
               (MAP_SYNC plat ||| MAP_SHARED_VALIDATE plat) mapfd,
             Ev.mmapCall size flags 0 mapfd])
      ∧ MAP_SYNC plat ||| MAP_SHARED_VALIDATE plat ≠ 0
      ∧ (env.retryMmap = none →
          (qemu_ram_mmap plat fd size align true true env).1 = .failed) := by
  unfold qemu_ram_mmap
  unfold fdPagesizeRule at hps
  rcases hp : (plat.ppc64 && plat.linux) with _ | _
  · -- non-ppc64 arm: pagesize is the host real page size
    rw [hp] at hps
    simp only [Bool.false_eq_true, if_false, Option.some.injEq] at hps
    subst hps
    refine ⟨MAP_PRIVATE ||| MAP_ANONYMOUS |||
              (if fd = -1 then MAP_ANONYMOUS else 0) ||| MAP_SHARED,
            -1, ?_⟩
    rcases env.retryMmap with _ | p <;>
      simp [hpow, halign, hfail, herr, MAP_SYNC, MAP_SHARED_VALIDATE, hlin,
            isWarnEv, isMmapEv, List.filter_append, List.filter,
            apply_ite (List.filter isWarnEv), apply_ite (List.filter isMmapEv)]
  · -- ppc64 Linux arm: pagesize comes from the fd probe
    rw [hp] at hps
    simp only [if_true] at hps
    rw [hps]
    have hnl : ¬ align < ps := not_lt.mpr halign
    by_cases hsel : fd = -1 ∨ ps = plat.realPageSize
    · refine ⟨MAP_PRIVATE ||| MAP_ANONYMOUS |||
                (if fd = -1 then MAP_ANONYMOUS else 0) ||| MAP_SHARED,
              -1, ?_⟩
      rcases env.retryMmap with _ | p <;>
        simp [hpow, halign, hnl, hsel, hfail, herr, MAP_SYNC,
              MAP_SHARED_VALIDATE, hlin, isWarnEv, isMmapEv,
              List.filter_append, List.filter,
              apply_ite (List.filter isWarnEv), apply_ite (List.filter isMmapEv)]
    · push_neg at hsel
      refine ⟨MAP_PRIVATE ||| MAP_NORESERVE |||
                (if fd = -1 then MAP_ANONYMOUS else 0) ||| MAP_SHARED,
              fd, ?_⟩
      rcases env.retryMmap with _ | p <;>
        simp [hpow, halign, hnl, hsel.1, hsel.2, hfail, herr, MAP_SYNC,
              MAP_SHARED_VALIDATE, hlin, isWarnEv, isMmapEv,
              List.filter_append, List.filter,
              apply_ite (List.filter isWarnEv), apply_ite (List.filter isMmapEv)]

/-- Witness for C4: the Linux/x86 platform, fd 5, size = align = 4096, the
ENOTSUP environment `envPmem`; the theorem instantiates with pagesize 4096. -/
theorem C4_witness :
    ∃ flags mapfd,
      ((qemu_ram_mmap platX 5 4096 4096 true true envPmem).2.filter isWarnEv
          = [Ev.warn ((envPmem.readlinkName).getD "")])
      ∧ ((qemu_ram_mmap platX 5 4096 4096 true true envPmem).2.filter isMmapEv
          = [Ev.mmapCall (4096 + 4096 + 4096) flags
               (MAP_SYNC platX ||| MAP_SHARED_VALIDATE platX) mapfd,
             Ev.mmapCall 4096 flags 0 mapfd])
      ∧ MAP_SYNC platX ||| MAP_SHARED_VALIDATE platX ≠ 0
      ∧ (envPmem.retryMmap = none →
          (qemu_ram_mmap platX 5 4096 4096 true true envPmem).1 = .failed) :=
  C4_pmem_enotsup_fallback platX 5 4096 4096 4096 envPmem rfl rfl (by decide)
    (by decide) rfl rfl

/-- Claim C5: whenever `align` is a power of two and at least the page size
the mapper derived for the fd (the quantity its own assert checks), a
`qemu_ram_mmap` call either returns FAILED or returns a base that is a
multiple of `align` — the base is `base_raw + (align_up(base_raw, align) -
base_raw)`. -/
theorem C5_map_alignment (plat : Platform) (fd : Int) (size align ps : Nat)
    (shared is_pmem : Bool) (env : MmapEnv)
    (hps : fdPagesizeRule plat fd env.fdOuts = some ps)
    (hpow : is_power_of_2 align = true)
    (halign : ps ≤ align) :
    (qemu_ram_mmap plat fd size align shared is_pmem env).1 = .failed
    ∨ ∃ b, (qemu_ram_mmap plat fd size align shared is_pmem env).1 = .addr b
        ∧ align ∣ b := by
  have hpos : 0 < align := is_power_of_2_pos hpow
  have key : ∀ p : Nat, p + (alignUp p align - p) = alignUp p align :=
    fun p => by have := le_alignUp p align hpos; omega
  have hnl : ¬ align < ps := not_lt.mpr halign
  unfold qemu_ram_mmap
  unfold fdPagesizeRule at hps
  rcases hp : (plat.ppc64 && plat.linux) with _ | _
  · rw [hp] at hps
    simp only [Bool.false_eq_true, if_false, Option.some.injEq] at hps
    subst hps
    rcases hl : plat.linux with _ | _ <;>
      rcases hsp : (shared && is_pmem) with _ | _ <;>
      rcases env.firstMmap with _ | p <;>
      rcases env.retryMmap with _ | q <;>
      simp [hpow, halign, hnl, key, MAP_SYNC, MAP_SHARED_VALIDATE, hl] <;>
      exact alignUp_dvd _ align
  · have hl : plat.linux = true := by
      revert hp
      cases plat.linux <;> simp
    rw [hp] at hps
    simp only [if_true] at hps
    rw [hps]
    by_cases hsel : fd = -1 ∨ ps = plat.realPageSize
    · rcases hsp : (shared && is_pmem) with _ | _ <;>
        rcases env.firstMmap with _ | p <;>
        rcases env.retryMmap with _ | q <;>
        simp [hpow, halign, hnl, key, MAP_SYNC, MAP_SHARED_VALIDATE, hl,
              hsel] <;>
        exact alignUp_dvd _ align
    · push_neg at hsel
      rcases hsp : (shared && is_pmem) with _ | _ <;>
        rcases env.firstMmap with _ | p <;>
        rcases env.retryMmap with _ | q <;>
        simp [hpow, halign, hnl, key, MAP_SYNC, MAP_SHARED_VALIDATE, hl,
              hsel.1, hsel.2] <;>
        exact alignUp_dvd _ align

/-- Witness for C5: the guard-failure run returns base 8192, a multiple of
the requested alignment 4096. -/
theorem C5_witness :
    (qemu_ram_mmap platX (-1) 4096 4096 false false envGuard).1 = .failed
    ∨ ∃ b, (qemu_ram_mmap platX (-1) 4096 4096 false false envGuard).1
            = .addr b ∧ 4096 ∣ b :=
  C5_map_alignment platX (-1) 4096 4096 4096 false false envGuard rfl
    (by decide) (by decide)

/-- Claim C6: `qemu_fd_getpagesize` returns the probed block size exactly
when `fd ≥ 0` (so `fd ≠ -1`) and the probe identifies the hugetlbfs magic;
with `fd = -1`, on probe failure, or on a non-hugepage filesystem it returns
the Linux fallback (real page size, or the sparc vmalloc-align override); on
non-Linux builds it returns the real page size unconditionally; the probe is
retried while it fails with EINTR; and whenever the probe loop exits the
function returns a value — it has no process-terminating path. -/
theorem C6_fd_getpagesize_spec :
    (∀ (plat : Platform) (fd : Int) (outs : List StatfsOutcome) (b : Nat),
      plat.linux = true → 0 ≤ fd →
      statfsLoop outs = some (.ok HUGETLBFS_MAGIC b) →
      qemu_fd_getpagesize plat fd outs = some b)
    ∧ (∀ (plat : Platform) (fd : Int) (outs : List StatfsOutcome),
        plat.linux = true →
        (fd = -1 ∨ (∃ e, statfsLoop outs = some (.fail e))
          ∨ (∃ t b, statfsLoop outs = some (.ok t b) ∧ t ≠ HUGETLBFS_MAGIC)) →
        qemu_fd_getpagesize plat fd outs = some (linuxFallback plat))
    ∧ (∀ (plat : Platform) (fd : Int) (outs : List StatfsOutcome),
        plat.linux = false →
        qemu_fd_getpagesize plat fd outs = some plat.realPageSize)
    ∧ (∀ (plat : Platform) (fd : Int) (outs : List StatfsOutcome),
        qemu_fd_getpagesize plat fd (.fail EINTR :: outs)
          = qemu_fd_getpagesize plat fd outs)
    ∧ (∀ (plat : Platform) (fd : Int) (outs : List StatfsOutcome),
        statfsLoop outs ≠ none →
        ∃ r, qemu_fd_getpagesize plat fd outs = some r) := by
  refine ⟨?_, ?_, ?_, ?_, ?_⟩
  · intro plat fd outs b hlin hfd hloop
    have hne : fd ≠ -1 := by omega
    simp [qemu_fd_getpagesize, hlin, hne, hloop]
  · intro plat fd outs hlin hcase
    rcases hcase with h | ⟨e, h⟩ | ⟨t, b, h, ht⟩
    · simp [qemu_fd_getpagesize, hlin, h]
    · by_cases hne : fd = -1 <;> simp [qemu_fd_getpagesize, hlin, hne, h]
    · by_cases hne : fd = -1 <;> simp [qemu_fd_getpagesize, hlin, hne, h, ht]
  · intro plat fd outs hlin
    simp [qemu_fd_getpagesize, hlin]
  · intro plat fd outs
    by_cases hne : fd = -1 <;>
      simp [qemu_fd_getpagesize, statfsLoop, hne, EINTR]
  · intro plat fd outs hloop
    rcases hl : plat.linux with _ | _
    · exact ⟨plat.realPageSize, by simp [qemu_fd_getpagesize, hl]⟩
    · by_cases hne : fd = -1
      · exact ⟨linuxFallback plat, by simp [qemu_fd_getpagesize, hl, hne]⟩
      · rcases h : statfsLoop outs with _ | o
        · exact absurd h hloop
        · rcases o with ⟨t, b⟩ | e
          · by_cases ht : t = HUGETLBFS_MAGIC
            · exact ⟨b, by simp [qemu_fd_getpagesize, hl, hne, h, ht]⟩
            · exact ⟨linuxFallback plat, by
                simp [qemu_fd_getpagesize, hl, hne, h, ht]⟩
          · exact ⟨linuxFallback plat, by
              simp [qemu_fd_getpagesize, hl, hne, h]⟩

/-- Witness for C6 (scenario S2): a hugetlbfs probe with block size 2 MiB on
fd 3 yields page size 2 MiB. -/
theorem C6_witness :
    qemu_fd_getpagesize platX 3 [.ok HUGETLBFS_MAGIC 2097152]
      = some 2097152 :=
  C6_fd_getpagesize_spec.1 platX 3 [.ok HUGETLBFS_MAGIC 2097152] 2097152
    rfl (by omega) (by decide)

/-- Claim C9: `qemu_ram_munmap` with a NULL base does nothing; with a
non-NULL base it re-derives the page size by the very per-platform rule the
mapper used (`fdPagesizeRule`) and performs exactly one release of
`size + pagesize` bytes starting at `base` — a range that covers the
trailing guard `[base+size, base+size+pagesize)` but no byte below `base`
(the leading padding is not released). -/
theorem C9_munmap_spec (plat : Platform) (fd : Int)
    (outs : List StatfsOutcome) (size : Nat) :
    qemu_ram_munmap plat fd outs 0 size = some []
    ∧ (∀ base ps, base ≠ 0 → fdPagesizeRule plat fd outs = some ps →
        qemu_ram_munmap plat fd outs base size
            = some [Ev.munmapEv base (size + ps)]
        ∧ (∀ a, base + size ≤ a → a < base + size + ps →
            releases (Ev.munmapEv base (size + ps)) a)
        ∧ (∀ a, a < base → ¬ releases (Ev.munmapEv base (size + ps)) a)) := by
  constructor
  · simp [qemu_ram_munmap]
  · intro base ps hbase hps
    unfold fdPagesizeRule at hps
    refine ⟨?_, ?_, ?_⟩
    · unfold qemu_ram_munmap
      rcases hp : (plat.ppc64 && plat.linux) with _ | _ <;>
        rw [hp] at hps <;> simp at hps <;> simp [hbase, hps]
    · intro a h1 h2
      simp only [releases]
      omega
    · intro a h
      simp only [releases]
      omega

/-- Witness for C9: on the Linux/x86 platform with fd -1, releasing base 8192
with size 4096 munmaps exactly `[8192, 8192+8192)`: it covers the trailing
guard byte 12288 and not the leading-padding byte 8191. -/
theorem C9_witness :
    qemu_ram_munmap platX (-1) [] 0 4096 = some []
    ∧ qemu_ram_munmap platX (-1) [] 8192 4096
        = some [Ev.munmapEv 8192 (4096 + 4096)]
    ∧ releases (Ev.munmapEv 8192 (4096 + 4096)) 12288
    ∧ ¬ releases (Ev.munmapEv 8192 (4096 + 4096)) 8191 := by
  have h := C9_munmap_spec platX (-1) [] 4096
  have h2 := h.2 8192 4096 (by omega) rfl
  exact ⟨h.1, h2.1, h2.2.1 12288 (by omega) (by omega), h2.2.2 8191 (by omega)⟩

/-- Concrete state for the enter-abort witnesses: coroutine 1 carries a
non-null `scheduled` tag, coroutine 2 a non-null `caller`. -/
def stAbort : SysState :=
  { cos := fun i =>
      if i = 1 then { freshShell with scheduled := some "aio_co_schedule" }
      else if i = 2 then { freshShell with caller := some 0 }
      else freshShell,
    pool := { total := 0, stack := [] },
    nextId := 3 }

/-- Claim C7: entering a coroutine whose `scheduled` tag is non-null aborts
with a diagnostic carrying the tag, and entering one whose `caller` is
non-null aborts with the recursive-re-enter diagnostic; in both cases the
run ends immediately with the whole state (in particular `co`'s shell)
unmodified and nothing entered. -/
theorem C7_enter_abort_spec (beh : Nat → Slice) (ctx frm fuel co : Nat)
    (st : SysState) :
    (∀ tag, (st.cos co).scheduled = some tag →
      qemu_aio_coroutine_enter beh ctx frm fuel co st
        = ⟨.abortScheduled tag, st, []⟩)
    ∧ ((st.cos co).scheduled = none →
       ∀ c, (st.cos co).caller = some c →
        qemu_aio_coroutine_enter beh ctx frm fuel co st
          = ⟨.abortReenter, st, []⟩) := by
  constructor
  · intro tag h
    simp [qemu_aio_coroutine_enter, drainLoop, h]
  · intro h c hc
    simp [qemu_aio_coroutine_enter, drainLoop, h, hc]

/-- Witness for C7: in `stAbort`, entering coroutine 1 aborts on the
scheduled tag and entering coroutine 2 aborts on recursive re-entry. -/
theorem C7_witness :
    qemu_aio_coroutine_enter termBeh 0 0 5 1 stAbort
        = ⟨.abortScheduled "aio_co_schedule", stAbort, []⟩
    ∧ qemu_aio_coroutine_enter termBeh 0 0 5 2 stAbort
        = ⟨.abortReenter, stAbort, []⟩ :=
  ⟨(C7_enter_abort_spec termBeh 0 0 5 1 stAbort).1 "aio_co_schedule" rfl,
   (C7_enter_abort_spec termBeh 0 0 5 2 stAbort).2 rfl 0 rfl⟩

/-- Claim C8: `qemu_coroutine_yield` run in coroutine `self` aborts when
`self.caller` is null; otherwise it clears `self.caller` to null (leaving
every other coroutine and the pool untouched) and switches control to the
former caller with the YIELD action. -/
theorem C8_yield_spec (self : Nat) (st : SysState) :
    ((st.cos self).caller = none →
      qemu_coroutine_yield self st = .abortNoCaller st)
    ∧ (∀ c, (st.cos self).caller = some c →
        ∃ st', qemu_coroutine_yield self st = .switched c st'
          ∧ (st'.cos self).caller = none
          ∧ (∀ j, j ≠ self → st'.cos j = st.cos j)
          ∧ st'.pool = st.pool) := by
  constructor
  · intro h
    simp [qemu_coroutine_yield, h]
  · intro c hc
    refine ⟨{ st with
              cos := setCo st.cos self { st.cos self with caller := none } },
            by simp [qemu_coroutine_yield, hc], by simp [setCo], ?_, rfl⟩
    intro j hj
    simp [setCo, hj]

/-- Witness for C8: in `stAbort`, coroutine 3 (never entered, null caller)
aborts on yield, and coroutine 2 (caller 0) switches to 0. -/
theorem C8_witness :
    qemu_coroutine_yield 3 stAbort = .abortNoCaller stAbort
    ∧ ∃ st', qemu_coroutine_yield 2 stAbort = .switched 0 st'
        ∧ (st'.cos 2).caller = none
        ∧ (∀ j, j ≠ 2 → st'.cos j = stAbort.cos j)
        ∧ st'.pool = stAbort.pool :=
  ⟨(C8_yield_spec 3 stAbort).1 rfl, (C8_yield_spec 2 stAbort).2 0 rfl⟩

/-- Claim C10: under the pool invariant that every shell on the free list has
a null caller (which `coroutine_delete` establishes before recycling a shell
and preserves — second conjunct), `qemu_coroutine_create` returns a
coroutine with null caller (so `qemu_coroutine_entered` is false), an empty
`co_queue_wakeup`, and the supplied entry and entry argument installed; this
covers both the fresh-allocation path and the recycled path. -/
theorem C10_create_fresh_state (e a : Nat) (st : SysState)
    (hpool : ∀ id ∈ st.pool.stack, (st.cos id).caller = none) :
    (((qemu_coroutine_create e a st).2.cos
        (qemu_coroutine_create e a st).1).caller = none
     ∧ ((qemu_coroutine_create e a st).2.cos
          (qemu_coroutine_create e a st).1).wakeups = []
     ∧ ((qemu_coroutine_create e a st).2.cos
          (qemu_coroutine_create e a st).1).entry = e
     ∧ ((qemu_coroutine_create e a st).2.cos
          (qemu_coroutine_create e a st).1).entryArg = a
     ∧ qemu_coroutine_entered (qemu_coroutine_create e a st).1
          (qemu_coroutine_create e a st).2 = false)
    ∧ (∀ (st₀ : SysState) (id : Nat),
        (∀ j ∈ st₀.pool.stack, (st₀.cos j).caller = none) →
        ∀ j ∈ (coroutine_delete id st₀).pool.stack,
          ((coroutine_delete id st₀).cos j).caller = none) := by
  constructor
  · rcases hstack : st.pool.stack with _ | ⟨id, rest⟩
    · simp [qemu_coroutine_create, hstack, setCo, qemu_coroutine_entered,
            freshShell]
    · have hid : (st.cos id).caller = none :=
        hpool id (by rw [hstack]; exact List.mem_cons_self id rest)
      simp [qemu_coroutine_create, hstack, setCo, qemu_coroutine_entered, hid]
  · intro st₀ id h j hj
    by_cases hc : COROUTINE_POOL_SIZE ≤ st₀.pool.total
    · simp only [coroutine_delete, hc, if_true] at hj ⊢
      by_cases hij : j = id
      · subst hij
        simp [setCo]
      · simp only [setCo, hij, if_false]
        exact h j hj
    · simp only [coroutine_delete, hc, if_false] at hj ⊢
      by_cases hij : j = id
      · subst hij
        simp [setCo]
      · simp only [setCo, hij, if_false]
        refine h j ?_
        rcases List.mem_cons.mp hj with heq | hmem
        · exact absurd heq hij
        · exact hmem

/-- Witness for C10: creating from the empty-pool initial state (fresh path;
the pool invariant holds vacuously). -/
theorem C10_witness :
    (((qemu_coroutine_create 7 8 initState).2.cos
        (qemu_coroutine_create 7 8 initState).1).caller = none
     ∧ ((qemu_coroutine_create 7 8 initState).2.cos
          (qemu_coroutine_create 7 8 initState).1).wakeups = []
     ∧ ((qemu_coroutine_create 7 8 initState).2.cos
          (qemu_coroutine_create 7 8 initState).1).entry = 7
     ∧ ((qemu_coroutine_create 7 8 initState).2.cos
          (qemu_coroutine_create 7 8 initState).1).entryArg = 8
     ∧ qemu_coroutine_entered (qemu_coroutine_create 7 8 initState).1
          (qemu_coroutine_create 7 8 initState).2 = false)
    ∧ (∀ (st₀ : SysState) (id : Nat),
        (∀ j ∈ st₀.pool.stack, (st₀.cos j).caller = none) →
        ∀ j ∈ (coroutine_delete id st₀).pool.stack,
          ((coroutine_delete id st₀).cos j).caller = none) :=
  C10_create_fresh_state 7 8 initState (by simp [initState])

/-- The drain loop only appends to the entered-trace accumulator. -/
theorem drainLoop_entered_prefix (beh : Nat → Slice) (ctx frm : Nat) :
    ∀ (fuel : Nat) (pending : List Nat) (st : SysState) (tr : List Nat),
      ∃ t, (drainLoop beh ctx frm fuel pending st tr).entered = tr ++ t := by
  intro fuel
  induction fuel with
  | zero =>
      intro pending st tr
      cases pending with
      | nil => exact ⟨[], by simp [drainLoop]⟩
      | cons tgt rest =>
          rcases hs : (st.cos tgt).scheduled with _ | tag
          · rcases hc : (st.cos tgt).caller with _ | c
            · rcases ha : (beh tgt).action with _ | _ <;>
                [exact ⟨[tgt], by simp [drainLoop, hs, hc, ha]⟩;
                 by_cases hlk : (st.cos tgt).locksHeld ≠ 0 <;>
                   exact ⟨[tgt], by simp [drainLoop, hs, hc, ha, hlk]⟩]
            · exact ⟨[], by simp [drainLoop, hs, hc]⟩
          · exact ⟨[], by simp [drainLoop, hs]⟩
  | succ n ih =>
      intro pending st tr
      cases pending with
      | nil => exact ⟨[], by simp [drainLoop]⟩
      | cons tgt rest =>
          rcases hs : (st.cos tgt).scheduled with _ | tag
          · rcases hc : (st.cos tgt).caller with _ | c
            · rcases ha : (beh tgt).action with _ | _
              · simp only [drainLoop, hs, hc, ha]
                obtain ⟨t, ht⟩ := ih _ _ _
                exact ⟨[tgt] ++ t, by rw [ht]; simp⟩
              · by_cases hlk : (st.cos tgt).locksHeld ≠ 0
                · exact ⟨[tgt], by simp [drainLoop, hs, hc, ha, hlk]⟩
                · simp only [drainLoop, hs, hc, ha, hlk, ite_false,
                             not_false_iff, if_false]
                  obtain ⟨t, ht⟩ := ih _ _ _
                  exact ⟨[tgt] ++ t, by rw [ht]; simp⟩
            · exact ⟨[], by simp [drainLoop, hs, hc]⟩
          · exact ⟨[], by simp [drainLoop, hs]⟩

/-- Claim C2: inside one `qemu_aio_coroutine_enter` drain loop, the wake-ups
a slice queued are prepended in order to the head of the pending queue.  So
if the pending queue is `A :: D :: rest` and `A`'s slice queues `[B, C]` and
yields, while `B`, `C`, `D` yield waking nobody (all four distinct and
enterable), the execution order is depth-first — `A, B, C, D` — before any
of `rest` runs: LIFO between generations, FIFO within a generation. -/
theorem C2_drain_order (beh : Nat → Slice) (ctx frm n : Nat)
    (A B C D : Nat) (rest : List Nat) (st : SysState)
    (hAB : B ≠ A) (hAC : C ≠ A) (hAD : D ≠ A)
    (hBC : C ≠ B) (hBD : D ≠ B) (hCD : D ≠ C)
    (hAs : (st.cos A).scheduled = none) (hAc : (st.cos A).caller = none)
    (hBs : (st.cos B).scheduled = none) (hBc : (st.cos B).caller = none)
    (hCs : (st.cos C).scheduled = none) (hCc : (st.cos C).caller = none)
    (hDs : (st.cos D).scheduled = none) (hDc : (st.cos D).caller = none)
    (hbehA : beh A = ⟨[B, C], .yield⟩)
    (hbehB : beh B = ⟨[], .yield⟩)
    (hbehC : beh C = ⟨[], .yield⟩)
    (hbehD : beh D = ⟨[], .yield⟩) :
    ∃ t, (drainLoop beh ctx frm (n + 4) (A :: D :: rest) st []).entered
          = [A, B, C, D] ++ t := by
  simp [drainLoop, hbehA, hbehB, hbehC, hbehD, hAs, hAc, hBs, hBc,
        hCs, hCc, hDs, hDc, setCo, hAB, hAC, hAD, hBC, hBD, hCD]
  obtain ⟨t, ht⟩ := drainLoop_entered_prefix beh ctx frm n rest _ [A, B, C, D]
  exact ⟨t, by rw [ht]; simp⟩

/-- Behavior for the C2 witness: coroutine 1 wakes `[2, 3]` then yields,
everyone else yields waking nobody. -/
def behWake : Nat → Slice :=
  fun i => if i = 1 then ⟨[2, 3], .yield⟩ else ⟨[], .yield⟩

/-- Witness for C2: with pending `[1, 4]` (A = 1, already-pending D = 4) and
A waking `[B, C] = [2, 3]`, the execution order is `1, 2, 3, 4`. -/
theorem C2_witness :
    ∃ t, (drainLoop behWake 0 0 (0 + 4) (1 :: 4 :: []) initState []).entered
          = [1, 2, 3, 4] ++ t :=
  C2_drain_order behWake 0 0 0 1 2 3 4 [] initState
    (by decide) (by decide) (by decide) (by decide) (by decide) (by decide)
    rfl rfl rfl rfl rfl rfl rfl rfl rfl rfl rfl rfl

/-- Pool state invariant of the S4 simulation, from step 1 on: one live
coroutine (id 1) sitting on the free list with a clean shell, and the
fresh-id supply frozen at 2. -/
theorem simulate_pool_inv (k : Nat) :
    (simulate (k + 1)).pool.total = 1
    ∧ (simulate (k + 1)).pool.stack = [1]
    ∧ (simulate (k + 1)).nextId = 2
    ∧ (simulate (k + 1)).cos 1 =
        { entry := 7, entryArg := 7, caller := none, scheduled := none,
          wakeups := [], locksHeld := 0, ctx := 0 } := by
  induction k with
  | zero => refine ⟨by decide, by decide, by decide, by decide⟩
  | succ n ih =>
      obtain ⟨h1, h2, h3, h4⟩ := ih
      rw [simulate]
      simp [runOnce, qemu_coroutine_create, drainLoop, coroutine_delete,
            termBeh, setCo, COROUTINE_POOL_SIZE, h1, h2, h3, h4]

/-- Claim C3 counterexample: running the S4 scenario — 20 sequential
create-then-terminate cycles from an empty pool — leaves `pool.total` at 1
at step 17, not 16: each terminated coroutine is recycled immediately, so
after step 1 every create is served from the free list and the population
never grows. -/
theorem C3_total_is_one_not_16_at_step_17 :
    (simulate 17).pool.total = 1 ∧ ¬ (simulate 17).pool.total = 16 := by
  have h1 : (simulate 17).pool.total = 1 := (simulate_pool_inv 16).1
  exact ⟨h1, by omega⟩

/-- Claim C3 (amended): sequentially creating and terminating coroutines
from an empty pool pins `pool.total` at 1 from step 1 onward (not 16 from
step 17): the single shell is recycled through the free list, whose length
stays 1, the fresh-id supply stays frozen at 2, and the next create pops the
free list without allocating (its state keeps `nextId` unchanged). -/
theorem C3_pool_pinned_at_one (k : Nat) (hk : 1 ≤ k) :
    (simulate k).pool.total = 1
    ∧ (simulate k).pool.stack.length = 1
    ∧ (simulate k).nextId = 2
    ∧ (qemu_coroutine_create 7 7 (simulate k)).2.nextId = 2
    ∧ (qemu_coroutine_create 7 7 (simulate k)).2.pool.total = 1 := by
  obtain ⟨j, rfl⟩ : ∃ j, k = j + 1 := ⟨k - 1, by omega⟩
  obtain ⟨h1, h2, h3, h4⟩ := simulate_pool_inv j
  refine ⟨h1, by rw [h2]; rfl, h3, ?_, ?_⟩ <;>
    simp [qemu_coroutine_create, h1, h2, h3]

/-- Witness for C3: at step 20 the pool total, free-list length and frozen
id supply are 1, 1 and 2. -/
theorem C3_witness :
    (simulate 20).pool.total = 1
    ∧ (simulate 20).pool.stack.length = 1
    ∧ (simulate 20).nextId = 2
    ∧ (qemu_coroutine_create 7 7 (simulate 20)).2.nextId = 2
    ∧ (qemu_coroutine_create 7 7 (simulate 20)).2.pool.total = 1 :=
  C3_pool_pinned_at_one 20 (by omega)

end QemuModel
